import Mathlib

/-!
Verification of the August integration entry point
(`homeassistant/components/august/__init__.py`).

The Python module is orchestration glue: `async_setup_entry` builds a
gateway, delegates to `async_setup_august`, and translates collaborator
exceptions into host-framework signals; `async_setup_august` is a
sequence of awaited collaborator calls with one conditional (stripping a
stored password from the entry data); `async_remove_config_entry_device`
decides whether a device may be removed.

The shallow embedding models each awaited collaborator call by an
environment (`Env`) that says whether that call raises and which
exception it raises.  Running the setup produces a result
(returned value or raised exception), a trace of the operations that
were started, in order, and the final observable state (the entry data,
whether `entry.runtime_data` was assigned, and which callbacks were
registered with the bus and with `entry.async_on_unload`).
-/

deriving instance DecidableEq for Except

namespace August

/-- `homeassistant.const.CONF_PASSWORD` (the key deleted at line 57). -/
def CONF_PASSWORD : String := "password"

/-- `homeassistant.const.EVENT_HOMEASSISTANT_STOP` (the bus event of line 65). -/
def EVENT_HOMEASSISTANT_STOP : String := "homeassistant_stop"

/-- `homeassistant.components.august.const.DOMAIN`. -/
def DOMAIN : String := "august"

/-- Exceptions a collaborator call inside `async_setup_august` can raise.
The six named constructors are exactly the classes named in the
`except` clauses of `async_setup_entry`; `otherExc s` stands for any
other exception class `s` (e.g. `"ValueError"`). -/
inductive Exc where
  | requireValidation
  | invalidAuth
  | timeoutError
  | augustApiAIOHTTPError
  | clientResponseError
  | cannotConnect
  | otherExc (name : String)
  deriving DecidableEq, Repr

/-- Exceptions as seen by the caller of `async_setup_entry`: the two
host-framework signals it raises (each chained from the collaborator
exception `cause` via `raise ... from err`), or the original exception
propagating unchanged through the `try` block. -/
inductive HostExc where
  | configEntryAuthFailed (cause : Exc)
  | configEntryNotReady (message : Option String) (cause : Exc)
  | uncaught (e : Exc)
  deriving DecidableEq, Repr

/-- The awaited / effectful operations `async_setup_august` performs, in
source order.  An operation enters the trace when control reaches it. -/
inductive Op where
  | gatewaySetup            -- `await august_gateway.async_setup(config)` (line 51)
  | updateEntry             -- `hass.config_entries.async_update_entry(...)` (line 58)
  | authenticate            -- `await august_gateway.async_authenticate()` (line 60)
  | refreshAccessToken      -- `await august_gateway.async_refresh_access_token_if_needed()` (line 61)
  | assignRuntimeData       -- `data = entry.runtime_data = AugustData(...)` (line 63)
  | busListenStop           -- `hass.bus.async_listen(EVENT_HOMEASSISTANT_STOP, data.async_stop)` (line 65)
  | registerUnloadBusRemove -- `entry.async_on_unload(<listener remove callback>)` (lines 64-66)
  | registerUnloadStop      -- `entry.async_on_unload(data.async_stop)` (line 67)
  | dataSetup               -- `await data.async_setup()` (line 68)
  | forwardEntrySetups      -- `await hass.config_entries.async_forward_entry_setups(entry, PLATFORMS)` (line 70)
  deriving DecidableEq, Repr

/-- The callbacks that get registered during setup: `data.async_stop`,
and the remove-listener callback returned by `hass.bus.async_listen`. -/
inductive Cb where
  | asyncStop
  | busRemove
  deriving DecidableEq, Repr

/-- A config entry, reduced to what the module reads: `entry.data`, a
string-keyed mapping (Python dict, so keys are unique). -/
structure Entry where
  data : List (String × String)
  deriving DecidableEq, Repr

/-- Outcome oracle for the awaited collaborator calls: `none` means the
call returns normally, `some e` means it raises `e`. -/
structure Env where
  gatewaySetupExc : Option Exc
  authenticateExc : Option Exc
  refreshExc : Option Exc
  dataSetupExc : Option Exc
  forwardExc : Option Exc
  deriving DecidableEq, Repr

/-- Observable state left behind by a run of `async_setup_august`. -/
structure SetupState where
  entryData : List (String × String)
  runtimeDataSet : Bool
  busListeners : List (String × Cb)
  onUnload : List Cb
  deriving DecidableEq, Repr

/-- Result of a run of `async_setup_august`: the returned value or the
raised exception, the trace of operations started, and the final state. -/
structure SetupResult where
  result : Except Exc Bool
  trace : List Op
  state : SetupState
  deriving Repr

/-- `CONF_PASSWORD in entry.data` (line 53). -/
def hasPassword (d : List (String × String)) : Bool :=
  d.any fun p => p.1 == CONF_PASSWORD

/-- `config_data = entry.data.copy(); del config_data[CONF_PASSWORD]`
(lines 56-57): the mapping with the `CONF_PASSWORD` key removed. -/
def stripPassword (d : List (String × String)) : List (String × String) :=
  d.filter fun p => !(p.1 == CONF_PASSWORD)

/-- `async_setup_august(hass, entry, august_gateway)` (lines 46-72),
as a function of the collaborator outcomes `env` and the entry. -/
def async_setup_august (env : Env) (entry : Entry) : SetupResult :=
  -- `await august_gateway.async_setup(config)`
  match env.gatewaySetupExc with
  | some e =>
      { result := .error e, trace := [.gatewaySetup],
        state := { entryData := entry.data, runtimeDataSet := false,
                   busListeners := [], onUnload := [] } }
  | none =>
    -- `if CONF_PASSWORD in entry.data: ... async_update_entry(...)`
    let entryData1 := if hasPassword entry.data then stripPassword entry.data else entry.data
    let tr1 : List Op := if hasPassword entry.data then [.gatewaySetup, .updateEntry] else [.gatewaySetup]
    -- `await august_gateway.async_authenticate()`
    match env.authenticateExc with
    | some e =>
        { result := .error e, trace := tr1 ++ [.authenticate],
          state := { entryData := entryData1, runtimeDataSet := false,
                     busListeners := [], onUnload := [] } }
    | none =>
      -- `await august_gateway.async_refresh_access_token_if_needed()`
      match env.refreshExc with
      | some e =>
          { result := .error e, trace := tr1 ++ [.authenticate, .refreshAccessToken],
            state := { entryData := entryData1, runtimeDataSet := false,
                       busListeners := [], onUnload := [] } }
      | none =>
        -- `data = entry.runtime_data = AugustData(hass, entry, august_gateway)`
        -- `entry.async_on_unload(hass.bus.async_listen(EVENT_HOMEASSISTANT_STOP, data.async_stop))`
        -- `entry.async_on_unload(data.async_stop)`
        let stFull : SetupState :=
          { entryData := entryData1, runtimeDataSet := true,
            busListeners := [(EVENT_HOMEASSISTANT_STOP, Cb.asyncStop)],
            onUnload := [Cb.busRemove, Cb.asyncStop] }
        -- `await data.async_setup()`
        match env.dataSetupExc with
        | some e =>
            { result := .error e,
              trace := tr1 ++ [.authenticate, .refreshAccessToken, .assignRuntimeData,
                               .busListenStop, .registerUnloadBusRemove, .registerUnloadStop,
                               .dataSetup],
              state := stFull }
        | none =>
          -- `await hass.config_entries.async_forward_entry_setups(entry, PLATFORMS)`
          match env.forwardExc with
          | some e =>
              { result := .error e,
                trace := tr1 ++ [.authenticate, .refreshAccessToken, .assignRuntimeData,
                                 .busListenStop, .registerUnloadBusRemove, .registerUnloadStop,
                                 .dataSetup, .forwardEntrySetups],
                state := stFull }
          | none =>
              -- `return True`
              { result := .ok true,
                trace := tr1 ++ [.authenticate, .refreshAccessToken, .assignRuntimeData,
                                 .busListenStop, .registerUnloadBusRemove, .registerUnloadStop,
                                 .dataSetup, .forwardEntrySetups],
                state := stFull }

/-- Result of a run of `async_setup_entry`. -/
structure EntryResult where
  result : Except HostExc Bool
  trace : List Op
  state : SetupState
  deriving Repr

/-- `async_setup_entry(hass, entry)` (lines 27-38): run
`async_setup_august` inside the `try` block and translate its
exceptions per the `except` clauses; anything else propagates. -/
def async_setup_entry (env : Env) (entry : Entry) : EntryResult :=
  let r := async_setup_august env entry
  { result :=
      match r.result with
      | .ok b => .ok b
      | .error Exc.requireValidation =>
          .error (HostExc.configEntryAuthFailed Exc.requireValidation)
      | .error Exc.invalidAuth =>
          .error (HostExc.configEntryAuthFailed Exc.invalidAuth)
      | .error Exc.timeoutError =>
          .error (HostExc.configEntryNotReady
            (some "Timed out connecting to august api") Exc.timeoutError)
      | .error Exc.augustApiAIOHTTPError =>
          .error (HostExc.configEntryNotReady none Exc.augustApiAIOHTTPError)
      | .error Exc.clientResponseError =>
          .error (HostExc.configEntryNotReady none Exc.clientResponseError)
      | .error Exc.cannotConnect =>
          .error (HostExc.configEntryNotReady none Exc.cannotConnect)
      | .error (Exc.otherExc n) => .error (HostExc.uncaught (Exc.otherExc n)),
    trace := r.trace, state := r.state }

/-- A device-registry entry, reduced to what the module reads:
`device_entry.identifiers`, a set of `(domain, unique_id)` pairs. -/
structure DeviceEntry where
  identifiers : List (String × String)
  deriving DecidableEq, Repr

/-- `async_remove_config_entry_device(hass, config_entry, device_entry)`
(lines 75-84).  `getDevice id` models the truthiness of
`config_entry.runtime_data.get_device(id)`. -/
def async_remove_config_entry_device (getDevice : String → Bool)
    (device_entry : DeviceEntry) : Bool :=
  !(device_entry.identifiers.any fun identifier =>
      identifier.1 == DOMAIN && getDevice identifier.2)

/-- The environment in which every collaborator call succeeds. -/
def envAllOk : Env :=
  { gatewaySetupExc := none, authenticateExc := none, refreshExc := none,
    dataSetupExc := none, forwardExc := none }

/-- An entry whose data has no `CONF_PASSWORD` key. -/
def entryNoPw : Entry := { data := [("login_method", "email"), ("username", "a@b.c")] }

/-- An entry whose data has a `CONF_PASSWORD` key. -/
def entryWithPw : Entry :=
  { data := [("login_method", "email"), ("username", "a@b.c"), ("password", "hunter2")] }

/-- An environment whose gateway-setup call raises `TimeoutError`. -/
def envGatewayTimeout : Env := { envAllOk with gatewaySetupExc := some Exc.timeoutError }

/-- On a run of `async_setup_august` that returns normally, the trace is
the full operation sequence (with the entry-data update present exactly
when the entry data holds a password) and the final state has the
runtime data assigned, the stop listener on the bus, and both cleanup
callbacks registered. -/
lemma august_success_shape (env : Env) (entry : Entry)
    (h : (async_setup_august env entry).result = .ok true) :
    (async_setup_august env entry).trace =
      (if hasPassword entry.data then [Op.gatewaySetup, Op.updateEntry]
       else [Op.gatewaySetup]) ++
      [Op.authenticate, Op.refreshAccessToken, Op.assignRuntimeData, Op.busListenStop,
       Op.registerUnloadBusRemove, Op.registerUnloadStop, Op.dataSetup,
       Op.forwardEntrySetups] ∧
    (async_setup_august env entry).state =
      { entryData := if hasPassword entry.data then stripPassword entry.data else entry.data,
        runtimeDataSet := true,
        busListeners := [(EVENT_HOMEASSISTANT_STOP, Cb.asyncStop)],
        onUnload := [Cb.busRemove, Cb.asyncStop] } := by
  obtain ⟨g, a, r, d, f⟩ := env
  cases g <;> cases a <;> cases r <;> cases d <;> cases f <;>
    simp_all [async_setup_august]

/-- C1: if the underlying setup raises `RequireValidation` or
`InvalidAuth`, `async_setup_entry` raises `ConfigEntryAuthFailed`
chained from the original exception. -/
theorem C1_auth_failure (env : Env) (entry : Entry) (e : Exc)
    (h : (async_setup_august env entry).result = .error e)
    (he : e = Exc.requireValidation ∨ e = Exc.invalidAuth) :
    (async_setup_entry env entry).result = .error (HostExc.configEntryAuthFailed e) := by
  rcases he with he | he <;> subst he <;> simp [async_setup_entry, h]

/-- C1 witness: a concrete run whose gateway setup raises
`RequireValidation`. -/
theorem C1_auth_failure_witness :
    (async_setup_entry { envAllOk with gatewaySetupExc := some Exc.requireValidation }
      entryNoPw).result = .error (HostExc.configEntryAuthFailed Exc.requireValidation) :=
  C1_auth_failure _ entryNoPw Exc.requireValidation (by decide) (Or.inl rfl)

/-- C2: if the underlying setup raises `TimeoutError`,
`async_setup_entry` raises `ConfigEntryNotReady` (with the timeout
message) chained from the original exception. -/
theorem C2_timeout_not_ready (env : Env) (entry : Entry)
    (h : (async_setup_august env entry).result = .error Exc.timeoutError) :
    (async_setup_entry env entry).result =
      .error (HostExc.configEntryNotReady
        (some "Timed out connecting to august api") Exc.timeoutError) := by
  simp [async_setup_entry, h]

/-- C2 witness: a concrete run whose authenticate call times out. -/
theorem C2_timeout_not_ready_witness :
    (async_setup_entry { envAllOk with authenticateExc := some Exc.timeoutError }
      entryNoPw).result =
      .error (HostExc.configEntryNotReady
        (some "Timed out connecting to august api") Exc.timeoutError) :=
  C2_timeout_not_ready _ entryNoPw (by decide)

/-- C3: if the underlying setup raises `AugustApiAIOHTTPError`,
`ClientResponseError` or `CannotConnect`, `async_setup_entry` raises
`ConfigEntryNotReady` chained from the original exception. -/
theorem C3_api_error_not_ready (env : Env) (entry : Entry) (e : Exc)
    (h : (async_setup_august env entry).result = .error e)
    (he : e = Exc.augustApiAIOHTTPError ∨ e = Exc.clientResponseError ∨
      e = Exc.cannotConnect) :
    (async_setup_entry env entry).result =
      .error (HostExc.configEntryNotReady none e) := by
  rcases he with he | he | he <;> subst he <;> simp [async_setup_entry, h]

/-- C3 witness: a concrete run whose token-refresh call raises
`CannotConnect`. -/
theorem C3_api_error_not_ready_witness :
    (async_setup_entry { envAllOk with refreshExc := some Exc.cannotConnect }
      entryNoPw).result = .error (HostExc.configEntryNotReady none Exc.cannotConnect) :=
  C3_api_error_not_ready _ entryNoPw Exc.cannotConnect (by decide)
    (Or.inr (Or.inr rfl))

/-- C4: any exception from the underlying setup that is not one of the
six named in the `except` clauses propagates through
`async_setup_entry` unchanged. -/
theorem C4_propagates_unchanged (env : Env) (entry : Entry) (e : Exc)
    (h : (async_setup_august env entry).result = .error e)
    (h1 : e ≠ Exc.requireValidation) (h2 : e ≠ Exc.invalidAuth)
    (h3 : e ≠ Exc.timeoutError) (h4 : e ≠ Exc.augustApiAIOHTTPError)
    (h5 : e ≠ Exc.clientResponseError) (h6 : e ≠ Exc.cannotConnect) :
    (async_setup_entry env entry).result = .error (HostExc.uncaught e) := by
  cases e <;> simp_all [async_setup_entry]

/-- C4 witness: a concrete run whose data-setup call raises a
`ValueError`, which passes through untranslated. -/
theorem C4_propagates_unchanged_witness :
    (async_setup_entry { envAllOk with dataSetupExc := some (Exc.otherExc "ValueError") }
      entryNoPw).result = .error (HostExc.uncaught (Exc.otherExc "ValueError")) :=
  C4_propagates_unchanged _ entryNoPw (Exc.otherExc "ValueError") (by decide)
    (by decide) (by decide) (by decide) (by decide) (by decide) (by decide)

/-- C10: `async_setup_august` and `async_setup_entry` either raise or
return `True`; neither ever returns `False`. -/
theorem C10_never_false (env : Env) (entry : Entry) :
    ((async_setup_august env entry).result = .ok true ∨
      ∃ e, (async_setup_august env entry).result = .error e) ∧
    ((async_setup_entry env entry).result = .ok true ∨
      ∃ he, (async_setup_entry env entry).result = .error he) := by
  have haug : (async_setup_august env entry).result = .ok true ∨
      ∃ e, (async_setup_august env entry).result = .error e := by
    obtain ⟨g, a, r, d, f⟩ := env
    cases g <;> cases a <;> cases r <;> cases d <;> cases f <;>
      simp [async_setup_august]
  refine ⟨haug, ?_⟩
  rcases haug with h | ⟨e, h⟩
  · exact Or.inl (by simp [async_setup_entry, h])
  · exact Or.inr (by cases e <;> simp [async_setup_entry, h])

/-- C5 counterexample: `async_setup_august` does not perform the same
operation sequence on every input — with every collaborator succeeding,
an entry holding a password gets the `async_update_entry` call and an
entry without one does not. -/
theorem C5_counterexample :
    hasPassword entryWithPw.data = true ∧ hasPassword entryNoPw.data = false ∧
    (async_setup_august envAllOk entryWithPw).trace ≠
      (async_setup_august envAllOk entryNoPw).trace ∧
    Op.updateEntry ∈ (async_setup_august envAllOk entryWithPw).trace ∧
    Op.updateEntry ∉ (async_setup_august envAllOk entryNoPw).trace := by decide

/-- C5 (amended): `async_setup_august` is a linear sequence of
collaborator calls whose only conditional is the entry-data update,
performed exactly when `CONF_PASSWORD` is a key of `entry.data`; apart
from that one optional operation, every normally-returning run performs
the same operations in the same order. -/
theorem C5_linear_sequence (env : Env) (entry : Entry)
    (h : (async_setup_august env entry).result = .ok true) :
    (async_setup_august env entry).trace =
      (if hasPassword entry.data then [Op.gatewaySetup, Op.updateEntry]
       else [Op.gatewaySetup]) ++
      [Op.authenticate, Op.refreshAccessToken, Op.assignRuntimeData, Op.busListenStop,
       Op.registerUnloadBusRemove, Op.registerUnloadStop, Op.dataSetup,
       Op.forwardEntrySetups] :=
  (august_success_shape env entry h).1

/-- C5 witness: the concrete trace of a successful run on an entry
holding a password. -/
theorem C5_linear_sequence_witness :
    (async_setup_august envAllOk entryWithPw).trace =
      (if hasPassword entryWithPw.data then [Op.gatewaySetup, Op.updateEntry]
       else [Op.gatewaySetup]) ++
      [Op.authenticate, Op.refreshAccessToken, Op.assignRuntimeData, Op.busListenStop,
       Op.registerUnloadBusRemove, Op.registerUnloadStop, Op.dataSetup,
       Op.forwardEntrySetups] :=
  C5_linear_sequence envAllOk entryWithPw (by decide)

/-- C6: on every normally-returning run, the gateway setup, the
authentication and the access-token refresh all precede the assignment
of `entry.runtime_data`, which precedes forwarding setup to the
sub-platforms. -/
theorem C6_call_order (env : Env) (entry : Entry)
    (h : (async_setup_august env entry).result = .ok true) :
    (async_setup_august env entry).state.runtimeDataSet = true ∧
    Op.assignRuntimeData ∈ (async_setup_august env entry).trace ∧
    Op.forwardEntrySetups ∈ (async_setup_august env entry).trace ∧
    (async_setup_august env entry).trace.indexOf Op.gatewaySetup <
      (async_setup_august env entry).trace.indexOf Op.assignRuntimeData ∧
    (async_setup_august env entry).trace.indexOf Op.authenticate <
      (async_setup_august env entry).trace.indexOf Op.assignRuntimeData ∧
    (async_setup_august env entry).trace.indexOf Op.refreshAccessToken <
      (async_setup_august env entry).trace.indexOf Op.assignRuntimeData ∧
    (async_setup_august env entry).trace.indexOf Op.assignRuntimeData <
      (async_setup_august env entry).trace.indexOf Op.forwardEntrySetups := by
  obtain ⟨htr, hst⟩ := august_success_shape env entry h
  rw [htr, hst]
  cases hpw : hasPassword entry.data <;> simp [hpw]

/-- C6 witness: the call order on a concrete successful run. -/
theorem C6_call_order_witness :
    (async_setup_august envAllOk entryNoPw).state.runtimeDataSet = true ∧
    Op.assignRuntimeData ∈ (async_setup_august envAllOk entryNoPw).trace ∧
    Op.forwardEntrySetups ∈ (async_setup_august envAllOk entryNoPw).trace ∧
    (async_setup_august envAllOk entryNoPw).trace.indexOf Op.gatewaySetup <
      (async_setup_august envAllOk entryNoPw).trace.indexOf Op.assignRuntimeData ∧
    (async_setup_august envAllOk entryNoPw).trace.indexOf Op.authenticate <
      (async_setup_august envAllOk entryNoPw).trace.indexOf Op.assignRuntimeData ∧
    (async_setup_august envAllOk entryNoPw).trace.indexOf Op.refreshAccessToken <
      (async_setup_august envAllOk entryNoPw).trace.indexOf Op.assignRuntimeData ∧
    (async_setup_august envAllOk entryNoPw).trace.indexOf Op.assignRuntimeData <
      (async_setup_august envAllOk entryNoPw).trace.indexOf Op.forwardEntrySetups :=
  C6_call_order envAllOk entryNoPw (by decide)

/-- C7: on every normally-returning run, `data.async_stop` is
registered as a listener for the `EVENT_HOMEASSISTANT_STOP` bus event
and directly as an on-unload callback (together with the listener's
remove callback), and all three registrations precede the forwarding of
setup to the sub-platforms. -/
theorem C7_cleanup_registered (env : Env) (entry : Entry)
    (h : (async_setup_august env entry).result = .ok true) :
    (EVENT_HOMEASSISTANT_STOP, Cb.asyncStop) ∈
      (async_setup_august env entry).state.busListeners ∧
    Cb.asyncStop ∈ (async_setup_august env entry).state.onUnload ∧
    Cb.busRemove ∈ (async_setup_august env entry).state.onUnload ∧
    (async_setup_august env entry).trace.indexOf Op.busListenStop <
      (async_setup_august env entry).trace.indexOf Op.forwardEntrySetups ∧
    (async_setup_august env entry).trace.indexOf Op.registerUnloadBusRemove <
      (async_setup_august env entry).trace.indexOf Op.forwardEntrySetups ∧
    (async_setup_august env entry).trace.indexOf Op.registerUnloadStop <
      (async_setup_august env entry).trace.indexOf Op.forwardEntrySetups := by
  obtain ⟨htr, hst⟩ := august_success_shape env entry h
  rw [htr, hst]
  cases hpw : hasPassword entry.data <;> simp [hpw]

/-- C7 witness: the cleanup registrations on a concrete successful run. -/
theorem C7_cleanup_registered_witness :
    (EVENT_HOMEASSISTANT_STOP, Cb.asyncStop) ∈
      (async_setup_august envAllOk entryNoPw).state.busListeners ∧
    Cb.asyncStop ∈ (async_setup_august envAllOk entryNoPw).state.onUnload ∧
    Cb.busRemove ∈ (async_setup_august envAllOk entryNoPw).state.onUnload ∧
    (async_setup_august envAllOk entryNoPw).trace.indexOf Op.busListenStop <
      (async_setup_august envAllOk entryNoPw).trace.indexOf Op.forwardEntrySetups ∧
    (async_setup_august envAllOk entryNoPw).trace.indexOf Op.registerUnloadBusRemove <
      (async_setup_august envAllOk entryNoPw).trace.indexOf Op.forwardEntrySetups ∧
    (async_setup_august envAllOk entryNoPw).trace.indexOf Op.registerUnloadStop <
      (async_setup_august envAllOk entryNoPw).trace.indexOf Op.forwardEntrySetups :=
  C7_cleanup_registered envAllOk entryNoPw (by decide)

/-- Looking up any key other than `CONF_PASSWORD` is unchanged by
stripping the password. -/
lemma lookup_stripPassword_ne (d : List (String × String)) (k : String)
    (hk : k ≠ CONF_PASSWORD) :
    (stripPassword d).lookup k = d.lookup k := by
  induction d with
  | nil => rfl
  | cons p t ih =>
    rcases p with ⟨a, v⟩
    rw [stripPassword] at ih ⊢
    rw [List.filter_cons]
    by_cases ha : a = CONF_PASSWORD
    · subst ha
      simp only [beq_self_eq_true, Bool.not_true, if_false]
      rw [List.lookup_cons]
      simp [beq_false_of_ne hk]
      exact ih
    · simp only [beq_false_of_ne ha, Bool.not_false, if_true]
      rw [List.lookup_cons, List.lookup_cons]
      cases hka : k == a
      · simp only []
        exact ih
      · rfl

/-- Looking up `CONF_PASSWORD` after stripping the password yields
nothing. -/
lemma lookup_stripPassword_self (d : List (String × String)) :
    (stripPassword d).lookup CONF_PASSWORD = none := by
  induction d with
  | nil => rfl
  | cons p t ih =>
    rcases p with ⟨a, v⟩
    rw [stripPassword] at ih ⊢
    rw [List.filter_cons]
    by_cases ha : a = CONF_PASSWORD
    · subst ha
      simpa using ih
    · simp only [beq_false_of_ne ha, Bool.not_false, if_true]
      rw [List.lookup_cons]
      have hb : (CONF_PASSWORD == a) = false := beq_false_of_ne fun h => ha h.symm
      simp only [hb]
      exact ih

/-- When the gateway-setup call returns normally (so control reaches the
password check), the final entry data is the stripped mapping exactly
when a password was stored, and the update operation runs exactly in
that case. -/
lemma august_entryData_shape (env : Env) (entry : Entry)
    (hg : env.gatewaySetupExc = none) :
    (async_setup_august env entry).state.entryData =
      (if hasPassword entry.data then stripPassword entry.data else entry.data) ∧
    ((Op.updateEntry ∈ (async_setup_august env entry).trace) ↔
      hasPassword entry.data = true) := by
  obtain ⟨g, a, r, d, f⟩ := env
  cases g
  · cases a <;> cases r <;> cases d <;> cases f <;>
      cases hpw : hasPassword entry.data <;>
        simp_all [async_setup_august]
  · exact absurd hg (by simp)

/-- C8 counterexample: the unconditional form of the password-stripping
claim fails — on an invocation whose gateway setup raises, the entry
data holds `CONF_PASSWORD` yet no entry-data update is performed and
the data still holds the password afterwards. -/
theorem C8_counterexample :
    hasPassword entryWithPw.data = true ∧
    Op.updateEntry ∉ (async_setup_august envGatewayTimeout entryWithPw).trace ∧
    hasPassword (async_setup_august envGatewayTimeout entryWithPw).state.entryData
      = true := by decide

/-- C8 (amended): provided the gateway-setup call returns normally (so
control reaches the password check), if `CONF_PASSWORD` is a key of
`entry.data` the entry is updated with the original mapping minus
exactly that key — every other key keeps its value — and if it is not a
key, no entry-data update is performed at all. -/
theorem C8_password_stripped (env : Env) (entry : Entry)
    (hg : env.gatewaySetupExc = none) :
    (hasPassword entry.data = true →
      Op.updateEntry ∈ (async_setup_august env entry).trace ∧
      (async_setup_august env entry).state.entryData = stripPassword entry.data ∧
      (∀ k, k ≠ CONF_PASSWORD →
        ((async_setup_august env entry).state.entryData).lookup k = entry.data.lookup k) ∧
      ((async_setup_august env entry).state.entryData).lookup CONF_PASSWORD = none) ∧
    (hasPassword entry.data = false →
      Op.updateEntry ∉ (async_setup_august env entry).trace ∧
      (async_setup_august env entry).state.entryData = entry.data) := by
  obtain ⟨hdata, hupd⟩ := august_entryData_shape env entry hg
  constructor
  · intro hpw
    rw [hpw] at hdata
    simp only [if_true] at hdata
    refine ⟨hupd.mpr hpw, hdata, ?_, ?_⟩
    · intro k hk
      rw [hdata]
      exact lookup_stripPassword_ne entry.data k hk
    · rw [hdata]
      exact lookup_stripPassword_self entry.data
  · intro hpw
    rw [hpw] at hdata
    simp only [Bool.false_eq_true, if_false] at hdata
    exact ⟨fun hmem => by simp [hpw] at hupd; exact hupd hmem, hdata⟩

/-- C8 witness: a concrete successful run on an entry holding a
password. -/
theorem C8_password_stripped_witness :
    (hasPassword entryWithPw.data = true →
      Op.updateEntry ∈ (async_setup_august envAllOk entryWithPw).trace ∧
      (async_setup_august envAllOk entryWithPw).state.entryData =
        stripPassword entryWithPw.data ∧
      (∀ k, k ≠ CONF_PASSWORD →
        ((async_setup_august envAllOk entryWithPw).state.entryData).lookup k =
          entryWithPw.data.lookup k) ∧
      ((async_setup_august envAllOk entryWithPw).state.entryData).lookup CONF_PASSWORD
        = none) ∧
    (hasPassword entryWithPw.data = false →
      Op.updateEntry ∉ (async_setup_august envAllOk entryWithPw).trace ∧
      (async_setup_august envAllOk entryWithPw).state.entryData = entryWithPw.data) :=
  C8_password_stripped envAllOk entryWithPw rfl

/-- C9: `async_remove_config_entry_device` returns `True` exactly when
no identifier pair of the device has first component `DOMAIN` and a
second component for which the runtime data still yields a (truthy)
device. -/
theorem C9_remove_iff_absent (getDevice : String → Bool)
    (device_entry : DeviceEntry) :
    async_remove_config_entry_device getDevice device_entry = true ↔
      ∀ p ∈ device_entry.identifiers, ¬(p.1 = DOMAIN ∧ getDevice p.2 = true) := by
  simp [async_remove_config_entry_device, List.any_eq_true, beq_iff_eq, not_and]

end August
